import Mathlib

/-!
Verification of the daily-schedule automation script
(`automation_daily_schedule.py`): a fetch → format → send pipeline.

The script's external collaborators (Google Calendar authentication and
queries, the Telegram send call, the task framework's retry loop) are
modelled as explicit parameters: an `Except String α` value stands for a
call that either returns `α` or raises an exception whose `str(e)` is the
carried message.
-/

namespace DailySchedule

/-- Python `needle in hay` on strings, where `needle.data` is checked as a
contiguous run of `hay.data`: `charsStartWith n h` is `n` being an initial
run of `h`. -/
def charsStartWith : List Char → List Char → Bool
  | [], _ => true
  | _ :: _, [] => false
  | a :: as, b :: bs => a == b && charsStartWith as bs

/-- Does `needle` occur as a contiguous run anywhere in `hay`? -/
def charsContain (needle : List Char) : List Char → Bool
  | [] => charsStartWith needle []
  | b :: t => charsStartWith needle (b :: t) || charsContain needle t

/-- Python's substring operator `needle in hay`. -/
def strContains (hay needle : String) : Bool :=
  charsContain needle.data hay.data

/-- Python `str.lower()` as the script uses it (on exception texts, whose
matched keywords are ASCII): lowercase every character. Written by direct
structural recursion over the character list so it evaluates in the
kernel. -/
def strLower (s : String) : String :=
  ⟨s.data.map Char.toLower⟩

/-- Python truthiness of an optional string (`os.getenv` result): `None` and
`""` are falsy. -/
def pyTruthyStr : Option String → Bool
  | none => false
  | some s => !s.isEmpty

/-- One `start`/`end` field of a Google Calendar event payload: a dict that
may carry a `dateTime` and/or a `date` entry. -/
structure EventTimeField where
  dateTime : Option String
  date : Option String
deriving DecidableEq

/-- An event item as consumed by `get_all_schedules`: optional `summary`,
and `start`/`end` payload fields. -/
structure Event where
  summary : Option String
  start : EventTimeField
  «end» : EventTimeField
deriving DecidableEq

/-- `e['start'].get('dateTime', e['start'].get('date'))` (line 74). -/
def startRaw (e : Event) : Option String :=
  e.start.dateTime.orElse fun _ => e.start.date

/-- `e['end'].get('dateTime', e['end'].get('date'))` (line 75). -/
def endRaw (e : Event) : Option String :=
  e.«end».dateTime.orElse fun _ => e.«end».date

/-- The `str(e)` of the `TypeError` Python raises when `None` is sliced
(`start_raw[:10]` or `end_raw[11:16]` with a `None` operand). -/
def noneTypeErrorText : String :=
  "'NoneType' object is not subscriptable"

/-- Lines 70–89: format one aggregated event into its entry
`"- [{event_date}] {title} ({time_str})\n"` minus the trailing newline,
or raise (`.error`) when the raw start (or, on the timed branch, the raw
end) is `None` and gets sliced. -/
def event_line (e : Event) : Except String String :=
  let title := e.summary.getD "Untitled Event"
  match startRaw e with
  | none => .error noneTypeErrorText
  | some start_raw =>
    let event_date := start_raw.take 10
    if strContains start_raw "T" then
      match endRaw e with
      | none => .error noneTypeErrorText
      | some end_raw =>
        let start_time := (start_raw.drop 11).take 5
        let end_time := (end_raw.drop 11).take 5
        let time_str := start_time ++ " - " ++ end_time
        .ok ("- [" ++ event_date ++ "] " ++ title ++ " (" ++ time_str ++ ")")
    else
      .ok ("- [" ++ event_date ++ "] " ++ title ++ " (" ++ "All-day" ++ ")")

/-- The `for e in all_events: response += ...` loop of lines 70–89, started
from the header; stops with the raised error if formatting any event
raises. -/
def format_fold : List Event → String → Except String String
  | [], response => .ok response
  | e :: rest, response =>
    match event_line e with
    | .error m => .error m
    | .ok line => format_fold rest (response ++ line ++ "\n")

/-- Lines 68–91: header `"Schedule for {date}:\n"` followed by one line per
event. -/
def format_events (date : String) (events : List Event) : Except String String :=
  format_fold events ("Schedule for " ++ date ++ ":\n")

/-- Line 44: the fixed list of queried calendars. -/
def target_calendars : List String :=
  ["primary", "id.indonesian#holiday@group.v.calendar.google.com"]

/-- Lines 47–61: iterate over `target_calendars`, extending `all_events`
with each source's items and silently skipping any source whose query
raises (`except: continue`). `query` maps a calendar id to its
`events().list(...).execute()` outcome. -/
def aggregate_events (query : String → Except String (List Event)) : List Event :=
  target_calendars.foldl
    (fun all_events calendar_id =>
      match query calendar_id with
      | .ok items => all_events ++ items
      | .error _ => all_events)
    []

def auth_error_msg : String :=
  "Authentication Error: Failed to load Google Calendar credentials securely."

def quota_error_msg : String :=
  "API Quota Error: Google Calendar API rate limit exceeded."

def network_error_msg : String :=
  "Network Error: Failed to connect to Google Calendar API."

def unknown_error_msg : String :=
  "Unexpected Error: An unknown issue occurred while fetching schedules."

/-- Lines 97–108: classify a caught exception's text into one of the four
safe messages by keyword match on the lowered text (`error_str =
str(e).lower()`). -/
def classify_fetch_error (e : String) : String :=
  if strContains (strLower e) "credentials" || strContains (strLower e) "token" ||
      strContains (strLower e) "json" then
    auth_error_msg
  else if strContains (strLower e) "quota" || strContains (strLower e) "ratelimit" then
    quota_error_msg
  else if strContains (strLower e) "network" || strContains (strLower e) "connection" ||
      strContains (strLower e) "timeout" then
    network_error_msg
  else
    unknown_error_msg

/-- Line 111: the line printed on fetch failure. -/
def fetch_log_line (error_msg : String) : String :=
  "Calendar Task Failed: " ++ error_msg

/-- One attempt of the `get_all_schedules` task (lines 29–112). `auth` is
the outcome of loading credentials and building the service; `query` maps
each calendar id to its query outcome. The whole `try` body either returns
the summary string, or its exception is classified and re-raised as
`Exception(error_msg)`. -/
def get_all_schedules (date : String) (auth : Except String Unit)
    (query : String → Except String (List Event)) : Except String String :=
  let body : Except String String :=
    match auth with
    | .error e => .error e
    | .ok _ =>
      let all_events := aggregate_events query
      if all_events.isEmpty then
        .ok ("No events scheduled for " ++ date ++ ".")
      else
        format_events date all_events
  match body with
  | .ok s => .ok s
  | .error e => .error (classify_fetch_error e)

def telegram_network_msg : String :=
  "❌ Network Error: Failed to connect to Telegram API."

def telegram_timeout_msg : String :=
  "⏳ Timeout Error: Telegram API did not respond."

def telegram_ssl_msg : String :=
  "🔒 SSL Error: Certificate verification failed."

def telegram_unknown_msg : String :=
  "❌ Telegram Send Failed: Unknown error occurred."

/-- Lines 148–160: classify a caught send exception's text into one of the
four safe messages by keyword match on the lowered text. -/
def classify_send_error (e : String) : String :=
  if strContains (strLower e) "connection" || strContains (strLower e) "dns" then
    telegram_network_msg
  else if strContains (strLower e) "timeout" then
    telegram_timeout_msg
  else if strContains (strLower e) "ssl" then
    telegram_ssl_msg
  else
    telegram_unknown_msg

/-- One attempt of the `to_telegram` task (lines 115–167). `token` and
`chat_id` are the module-level `TELEGRAM_TOKEN` / `TELEGRAM_CHAT_ID`
environment reads (`None` when absent); `send` is the outcome of
`asyncio.run(send_via_ptb())`. The credential check raises
`ValueError("Missing Telegram Credentials")` before the `try`, so that
message is not classified; a send failure is classified and re-raised as
`Exception(safe_msg)`. -/
def to_telegram (token chat_id : Option String)
    (send : Except String Unit) : Except String Unit :=
  if !pyTruthyStr token || !pyTruthyStr chat_id then
    .error "Missing Telegram Credentials"
  else
    match send with
    | .ok _ => .ok ()
    | .error e => .error (classify_send_error e)

def flow_auth_msg : String :=
  "Authentication Error: Failed to verify API credentials securely."

def flow_calendar_msg : String :=
  "Calendar Error: An issue occurred while fetching Google Calendar events."

def flow_network_msg : String :=
  "Network Error: Connection issues detected during flow execution."

def flow_unknown_msg : String :=
  "Unexpected Error: The flow failed due to an unknown issue."

/-- Lines 193–205: the orchestrator's own classification of a caught
exception's text. -/
def classify_flow_error (e : String) : String :=
  if strContains (strLower e) "credentials" || strContains (strLower e) "token" ||
      strContains (strLower e) "auth" then
    flow_auth_msg
  else if strContains (strLower e) "calendar" then
    flow_calendar_msg
  else if strContains (strLower e) "network" || strContains (strLower e) "connection" ||
      strContains (strLower e) "timeout" then
    flow_network_msg
  else
    flow_unknown_msg

/-- The `main_flow` orchestration (lines 170–210), given the outcome of
`get_all_schedules(current_date)` and the Notifier as a function of the
message text. Returns the flow's own outcome paired with the list of texts
passed to `to_telegram`, in call order (the `if today_schedules:`
truthiness gate skips the send for an empty string). -/
def main_flow (fetch : Except String String)
    (send : String → Except String Unit) : Except String Unit × List String :=
  match fetch with
  | .error e => (.error (classify_flow_error e), [])
  | .ok today_schedules =>
    if today_schedules.isEmpty then
      (.ok (), [])
    else
      match send today_schedules with
      | .ok _ => (.ok (), [today_schedules])
      | .error e => (.error (classify_flow_error e), [today_schedules])

/-- Line 28: `@task(..., retries=3, retry_delay_seconds=5)`. -/
def get_all_schedules_retries : Nat := 3

/-- Line 28: the fixed delay between attempts of the fetch task. -/
def get_all_schedules_retry_delay_seconds : Nat := 5

/-- Line 114: `@task(..., retries=3, retry_delay_seconds=5)`. -/
def to_telegram_retries : Nat := 3

/-- Line 114: the fixed delay between attempts of the send task. -/
def to_telegram_retry_delay_seconds : Nat := 5

/-- Does this outcome stand for a raised exception? -/
def exceptFails : Except String α → Bool
  | .ok _ => false
  | .error _ => true

/-- Modelled from the spec: the task framework's retry loop — the
`@task` decorator's machinery is external to this repository, src only
configures `retries` and `retry_delay_seconds`. "The caller retries this
whole operation up to 3 times with a fixed delay between attempts before
giving up"; retries are sequential with no backoff growth and no jitter.
`attempt i` is the outcome of the i-th run of the task body; the returned
list records the delay slept before each retry, so its length is the
number of retries consumed. -/
def runRetriesFrom (delay : Nat) (attempt : Nat → Except String α) :
    Nat → Nat → Except String α × List Nat
  | 0, i => (attempt i, [])
  | n + 1, i =>
    match attempt i with
    | .ok a => (.ok a, [])
    | .error _ =>
      let rest := runRetriesFrom delay attempt n (i + 1)
      (rest.1, delay :: rest.2)

/-- Modelled from the spec: run a task body under the framework's retry
policy (`retries` further attempts after the first failure, `delay`
seconds slept before each). -/
def runWithRetries (retries delay : Nat) (attempt : Nat → Except String α) :
    Except String α × List Nat :=
  runRetriesFrom delay attempt retries 0

/-- A timed event fixture: `"Standup"`, 09:00–10:30 on 2025-01-01 (Jakarta
offset), as the spec's worked example. -/
def standupEvent : Event :=
  { summary := some "Standup"
  , start := { dateTime := some "2025-01-01T09:00:00+07:00", date := none }
  , «end» := { dateTime := some "2025-01-01T10:30:00+07:00", date := none } }

/-- An all-day event fixture: `"Holiday"` with date-only start/end. -/
def holidayEvent : Event :=
  { summary := some "Holiday"
  , start := { dateTime := none, date := some "2025-01-01" }
  , «end» := { dateTime := none, date := some "2025-01-02" } }

/-- An event whose `start` payload has neither `dateTime` nor `date`. -/
def startlessEvent : Event :=
  { summary := some "Broken"
  , start := { dateTime := none, date := none }
  , «end» := { dateTime := none, date := none } }

/-! ### Helper lemmas -/

theorem charsContain_append_right (n xs ys : List Char)
    (h : charsContain n ys = true) : charsContain n (xs ++ ys) = true := by
  induction xs with
  | nil => simpa using h
  | cons x xs ih =>
    show (charsStartWith n (x :: (xs ++ ys)) || charsContain n (xs ++ ys)) = true
    rw [ih, Bool.or_true]

theorem strContains_append_right (a b n : String)
    (h : strContains b n = true) : strContains (a ++ b) n = true := by
  unfold strContains at *
  rw [String.data_append]
  exact charsContain_append_right n.data a.data b.data h

theorem strContains_prepend_false (a b n : String)
    (h : strContains (a ++ b) n = false) : strContains b n = false := by
  by_contra hb
  rw [strContains_append_right a b n (by simpa using hb)] at h
  exact Bool.true_eq_false.mp h

theorem format_fold_ok_length (evs : List Event) (init r : String)
    (h : format_fold evs init = .ok r) : init.length ≤ r.length := by
  induction evs generalizing init with
  | nil =>
    simp only [format_fold, Except.ok.injEq] at h
    exact h ▸ le_refl _
  | cons e rest ih =>
    simp only [format_fold] at h
    cases hline : event_line e with
    | error m => rw [hline] at h; exact absurd h (by simp)
    | ok line =>
      rw [hline] at h
      have := ih (init ++ line ++ "\n") h
      calc init.length ≤ (init ++ line ++ "\n").length := by
            rw [String.length_append, String.length_append]; omega
        _ ≤ r.length := this

theorem event_line_error_eq (e : Event) (m : String)
    (h : event_line e = .error m) : m = noneTypeErrorText := by
  unfold event_line at h
  cases hs : startRaw e with
  | none => rw [hs] at h; simp at h; exact h.symm
  | some start_raw =>
    rw [hs] at h
    simp only at h
    by_cases hT : strContains start_raw "T"
    · rw [if_pos hT] at h
      cases he : endRaw e with
      | none => rw [he] at h; simp at h; exact h.symm
      | some end_raw => rw [he] at h; simp at h
    · rw [if_neg hT] at h; simp at h

theorem format_fold_error_of_startless (evs : List Event) (init : String)
    (bad : Event) (hmem : bad ∈ evs) (hstart : startRaw bad = none) :
    format_fold evs init = .error noneTypeErrorText := by
  induction evs generalizing init with
  | nil => exact absurd hmem (List.not_mem_nil bad)
  | cons e rest ih =>
    simp only [format_fold]
    cases hline : event_line e with
    | error m => simp [event_line_error_eq e m hline]
    | ok line =>
      rcases List.mem_cons.mp hmem with heq | hrest
      · subst heq
        unfold event_line at hline
        rw [hstart] at hline
        exact absurd hline (by simp)
      · exact ih (init ++ line ++ "\n") hrest

theorem get_all_schedules_ok_ne (date : String) (auth : Except String Unit)
    (query : String → Except String (List Event)) (s : String)
    (h : get_all_schedules date auth query = .ok s) : s ≠ "" := by
  unfold get_all_schedules at h
  cases auth with
  | error e => simp at h
  | ok _ =>
    simp only at h
    by_cases hempty : (aggregate_events query).isEmpty
    · rw [if_pos hempty] at h
      simp only [Except.ok.injEq] at h
      intro hs
      rw [hs] at h
      have : ("No events scheduled for " ++ date ++ ".").length = "".length := by
        rw [h]
      simp [String.length_append] at this
      exact absurd this.1.1 (by decide)
    · rw [if_neg hempty] at h
      cases hf : format_events date (aggregate_events query) with
      | error m => rw [hf] at h; simp at h
      | ok r =>
        rw [hf] at h
        simp only [Except.ok.injEq] at h
        subst h
        have := format_fold_ok_length _ _ _ hf
        intro hs
        rw [hs] at this
        simp [String.length_append] at this
        exact absurd this.1.1 (by decide)

theorem ne_empty_isEmpty_false (s : String) (h : s ≠ "") : s.isEmpty = false := by
  rw [Bool.eq_false_iff]
  intro he
  exact h ((String.isEmpty_iff s).mp he)

/-! ### Claim theorems -/

/-- C1: for every date with zero aggregated events across all configured
calendar sources, `get_all_schedules` returns exactly the sentinel string
`"No events scheduled for {date}."` with the date substituted, and that
string is non-empty (truthy), so it is still eligible to be sent. -/
theorem get_all_schedules_empty_sentinel (date : String)
    (query : String → Except String (List Event))
    (h : aggregate_events query = []) :
    get_all_schedules date (.ok ()) query =
      .ok ("No events scheduled for " ++ date ++ ".") ∧
    ("No events scheduled for " ++ date ++ ".") ≠ "" := by
  constructor
  · simp [get_all_schedules, h]
  · intro hs
    have hlen : ("No events scheduled for " ++ date ++ ".").length = "".length := by
      rw [hs]
    simp [String.length_append] at hlen
    exact absurd hlen.1.1 (by decide)

theorem get_all_schedules_empty_sentinel_witness :
    aggregate_events (fun _ => .ok []) = ([] : List Event) ∧
    get_all_schedules "2025-01-01" (.ok ()) (fun _ => .ok []) =
      .ok "No events scheduled for 2025-01-01." := by
  refine ⟨rfl, ?_⟩
  exact (get_all_schedules_empty_sentinel "2025-01-01" (fun _ => .ok []) rfl).1

/-- C2: every timed event (raw start value containing a time-of-day
component, i.e. a `"T"`) is rendered as
`"- [{event_date}] {title} ({HH:MM} - {HH:MM})"`, with `event_date` the
first 10 characters of the raw start and the `HH:MM` fields characters
11–16 of the raw start and raw end. Instantiated at the spec's Standup
example by the witness. -/
theorem timed_event_rendering (e : Event) (s0 e0 : String)
    (hs : startRaw e = some s0) (he : endRaw e = some e0)
    (hT : strContains s0 "T" = true) :
    event_line e = .ok ("- [" ++ s0.take 10 ++ "] " ++
      e.summary.getD "Untitled Event" ++ " (" ++
      ((s0.drop 11).take 5 ++ " - " ++ (e0.drop 11).take 5) ++ ")") := by
  simp [event_line, hs, he, hT]

theorem timed_event_rendering_witness :
    startRaw standupEvent = some "2025-01-01T09:00:00+07:00" ∧
    endRaw standupEvent = some "2025-01-01T10:30:00+07:00" ∧
    strContains "2025-01-01T09:00:00+07:00" "T" = true ∧
    event_line standupEvent = .ok "- [2025-01-01] Standup (09:00 - 10:30)" := by
  refine ⟨rfl, rfl, by decide, ?_⟩
  exact timed_event_rendering standupEvent "2025-01-01T09:00:00+07:00"
    "2025-01-01T10:30:00+07:00" rfl rfl (by decide)

/-- C3: every all-day event (raw start value without a `"T"`) is rendered
with the literal `"All-day"` time range, and `event_date` is the first 10
characters of the raw start value. Instantiated at the spec's Holiday
example by the witness. -/
theorem allday_event_rendering (e : Event) (s0 : String)
    (hs : startRaw e = some s0) (hT : strContains s0 "T" = false) :
    event_line e = .ok ("- [" ++ s0.take 10 ++ "] " ++
      e.summary.getD "Untitled Event" ++ " (" ++ "All-day" ++ ")") := by
  simp [event_line, hs, hT]

theorem allday_event_rendering_witness :
    startRaw holidayEvent = some "2025-01-01" ∧
    holidayEvent.«end».date = some "2025-01-02" ∧
    strContains "2025-01-01" "T" = false ∧
    event_line holidayEvent = .ok "- [2025-01-01] Holiday (All-day)" := by
  refine ⟨rfl, rfl, by decide, ?_⟩
  exact allday_event_rendering holidayEvent "2025-01-01" rfl (by decide)

theorem aggregate_foldl_eq_flatten (query : String → Except String (List Event)) :
    ∀ (cals : List String) (acc : List Event),
      cals.foldl (fun all_events calendar_id =>
        match query calendar_id with
        | .ok items => all_events ++ items
        | .error _ => all_events) acc =
      acc ++ (cals.filterMap (fun c => (query c).toOption)).flatten := by
  intro cals
  induction cals with
  | nil => intro acc; simp
  | cons c rest ih =>
    intro acc
    cases hc : query c with
    | ok items => simp [hc, ih, Except.toOption]
    | error m => simp [hc, ih, Except.toOption]

/-- C4: if any single configured calendar source raises during its events
query, the aggregation skips it and keeps, in order, the events of every
successful source (the filterMap drops exactly the raising sources), and
the fetch as a whole behaves exactly as if the failing source had returned
no items — no total failure from one bad source, whichever of the
configured sources it is. -/
theorem source_failure_swallowed (query : String → Except String (List Event))
    (bad msg : String)
    (hmem : bad ∈ target_calendars)
    (hbad : query bad = .error msg) :
    aggregate_events query =
      (target_calendars.filterMap (fun c => (query c).toOption)).flatten ∧
    aggregate_events query =
      aggregate_events (fun calendar_id =>
        if calendar_id = bad then .ok [] else query calendar_id) ∧
    ∀ date, get_all_schedules date (.ok ()) query =
      get_all_schedules date (.ok ())
        (fun calendar_id => if calendar_id = bad then .ok [] else query calendar_id) := by
  have hflat : aggregate_events query =
      (target_calendars.filterMap (fun c => (query c).toOption)).flatten := by
    unfold aggregate_events
    simpa using aggregate_foldl_eq_flatten query target_calendars []
  have hsame : aggregate_events query =
      aggregate_events (fun calendar_id =>
        if calendar_id = bad then .ok [] else query calendar_id) := by
    rcases List.mem_cons.mp hmem with h | h
    · subst h
      simp [aggregate_events, target_calendars, hbad]
    · rcases List.mem_cons.mp h with h | h
      · subst h
        simp [aggregate_events, target_calendars, hbad]
      · exact absurd h (List.not_mem_nil bad)
  refine ⟨hflat, hsame, fun date => ?_⟩
  simp only [get_all_schedules, hsame]

theorem source_failure_swallowed_witness :
    "id.indonesian#holiday@group.v.calendar.google.com" ∈ target_calendars ∧
    (fun calendar_id =>
      if calendar_id = "id.indonesian#holiday@group.v.calendar.google.com" then
        (.error "500 backend error" : Except String (List Event))
      else .ok [standupEvent]) "id.indonesian#holiday@group.v.calendar.google.com" =
      .error "500 backend error" ∧
    aggregate_events (fun calendar_id =>
      if calendar_id = "id.indonesian#holiday@group.v.calendar.google.com" then
        (.error "500 backend error" : Except String (List Event))
      else .ok [standupEvent]) = [standupEvent] := by
  refine ⟨by decide, rfl, ?_⟩
  have h := source_failure_swallowed
    (fun calendar_id =>
      if calendar_id = "id.indonesian#holiday@group.v.calendar.google.com" then
        (.error "500 backend error" : Except String (List Event))
      else .ok [standupEvent])
    "id.indonesian#holiday@group.v.calendar.google.com" "500 backend error"
    (by decide) rfl
  rw [h.1]
  decide

/-- C5 counterexample: for the exception whose text is `"credentials"`,
the classified message raised by `get_all_schedules` and the logged line
both contain the original exception text, refuting the claim that they
never do. -/
theorem fetch_error_leaks_exception_text :
    classify_fetch_error "credentials" = auth_error_msg ∧
    strContains (classify_fetch_error "credentials") "credentials" = true ∧
    strContains (fetch_log_line (classify_fetch_error "credentials"))
      "credentials" = true := by
  exact ⟨by decide, by decide, by decide⟩

/-- C5 (amended): every caught fetch exception is classified into exactly
one of the four fixed safe messages, and the raised message and logged
line contain the original exception text only when that text happens to be
a substring of one of the four fixed log lines (e.g. the literal
`"credentials"`). -/
theorem fetch_error_classified_safe (e : String)
    (h1 : strContains (fetch_log_line auth_error_msg) e = false)
    (h2 : strContains (fetch_log_line quota_error_msg) e = false)
    (h3 : strContains (fetch_log_line network_error_msg) e = false)
    (h4 : strContains (fetch_log_line unknown_error_msg) e = false) :
    (classify_fetch_error e = auth_error_msg ∨
     classify_fetch_error e = quota_error_msg ∨
     classify_fetch_error e = network_error_msg ∨
     classify_fetch_error e = unknown_error_msg) ∧
    strContains (fetch_log_line (classify_fetch_error e)) e = false ∧
    strContains (classify_fetch_error e) e = false := by
  have hmem : classify_fetch_error e = auth_error_msg ∨
      classify_fetch_error e = quota_error_msg ∨
      classify_fetch_error e = network_error_msg ∨
      classify_fetch_error e = unknown_error_msg := by
    unfold classify_fetch_error
    split_ifs <;> simp
  refine ⟨hmem, ?_, ?_⟩
  · rcases hmem with h | h | h | h <;> rw [h] <;> assumption
  · rcases hmem with h | h | h | h <;> rw [h]
    · exact strContains_prepend_false "Calendar Task Failed: " auth_error_msg e h1
    · exact strContains_prepend_false "Calendar Task Failed: " quota_error_msg e h2
    · exact strContains_prepend_false "Calendar Task Failed: " network_error_msg e h3
    · exact strContains_prepend_false "Calendar Task Failed: " unknown_error_msg e h4

theorem fetch_error_classified_safe_witness :
    strContains (fetch_log_line auth_error_msg) "boom" = false ∧
    strContains (fetch_log_line (classify_fetch_error "boom")) "boom" = false ∧
    strContains (classify_fetch_error "boom") "boom" = false := by
  refine ⟨by decide, ?_⟩
  have h := fetch_error_classified_safe "boom"
    (by decide) (by decide) (by decide) (by decide)
  exact ⟨h.2.1, h.2.2⟩

theorem runRetriesFrom_const_fail {α : Type} (delay : Nat)
    (attempt : Nat → Except String α) (m : String)
    (h : ∀ i, attempt i = .error m) :
    ∀ n i, runRetriesFrom delay attempt n i =
      (.error m, List.replicate n delay) := by
  intro n
  induction n with
  | zero => intro i; simp [runRetriesFrom, h i, List.replicate]
  | succ k ih => intro i; simp [runRetriesFrom, h i, ih (i + 1), List.replicate]

theorem runRetriesFrom_all_fail {α : Type} (delay : Nat)
    (attempt : Nat → Except String α)
    (h : ∀ i, exceptFails (attempt i) = true) :
    ∀ n i, (runRetriesFrom delay attempt n i).2 = List.replicate n delay ∧
      exceptFails (runRetriesFrom delay attempt n i).1 = true := by
  intro n
  induction n with
  | zero =>
    intro i
    exact ⟨rfl, h i⟩
  | succ k ih =>
    intro i
    cases hA : attempt i with
    | ok a =>
      have := h i
      rw [hA] at this
      exact absurd this (by simp [exceptFails])
    | error m =>
      simp only [runRetriesFrom, hA, List.replicate]
      exact ⟨by rw [(ih (i + 1)).1], (ih (i + 1)).2⟩

theorem runRetriesFrom_delays {α : Type} (delay : Nat)
    (attempt : Nat → Except String α) :
    ∀ n i, (runRetriesFrom delay attempt n i).2.length ≤ n ∧
      ∀ d ∈ (runRetriesFrom delay attempt n i).2, d = delay := by
  intro n
  induction n with
  | zero =>
    intro i
    simp [runRetriesFrom]
  | succ k ih =>
    intro i
    cases hA : attempt i with
    | ok a => simp [runRetriesFrom, hA]
    | error m =>
      simp only [runRetriesFrom, hA, List.length_cons]
      constructor
      · exact Nat.succ_le_succ (ih (i + 1)).1
      · intro d hd
        rcases List.mem_cons.mp hd with h | h
        · exact h
        · exact (ih (i + 1)).2 d h

/-- C6 counterexample: with the messaging token absent, one `to_telegram`
attempt fails immediately with the missing-credential error, but the task
framework's retry loop (as the spec describes it: retry any failure up to
3 times with a fixed delay) still performs all 3 retries before giving up
— retry attempts are consumed, refuting "without consuming any retry
attempts". -/
theorem missing_credentials_still_retried :
    to_telegram none (some "12345") (.ok ()) =
      .error "Missing Telegram Credentials" ∧
    (runWithRetries to_telegram_retries to_telegram_retry_delay_seconds
      (fun _ => to_telegram none (some "12345") (.ok ()))).2 = [5, 5, 5] ∧
    (runWithRetries to_telegram_retries to_telegram_retry_delay_seconds
      (fun _ => to_telegram none (some "12345") (.ok ()))).1 =
      .error "Missing Telegram Credentials" := by
  exact ⟨rfl, rfl, rfl⟩

/-- C6 (amended): if the messaging token or the destination chat identifier
is missing, every `to_telegram` attempt fails immediately with the
missing-credential error — independently of the send outcome, so no send
is ever performed — but the caller's retry wrapper still treats it like
any failure and consumes its full budget of 3 fixed-delay retries before
the task gives up with that same error. -/
theorem missing_credentials_fail_fast (token chat_id : Option String)
    (send : Except String Unit)
    (h : pyTruthyStr token = false ∨ pyTruthyStr chat_id = false) :
    to_telegram token chat_id send = .error "Missing Telegram Credentials" ∧
    (runWithRetries to_telegram_retries to_telegram_retry_delay_seconds
      (fun _ => to_telegram token chat_id send)).2 =
      List.replicate to_telegram_retries to_telegram_retry_delay_seconds ∧
    (runWithRetries to_telegram_retries to_telegram_retry_delay_seconds
      (fun _ => to_telegram token chat_id send)).1 =
      .error "Missing Telegram Credentials" := by
  have hfail : to_telegram token chat_id send =
      .error "Missing Telegram Credentials" := by
    unfold to_telegram
    rcases h with h | h <;> rw [h] <;> simp
  have hrun := runRetriesFrom_const_fail to_telegram_retry_delay_seconds
    (fun _ => to_telegram token chat_id send) "Missing Telegram Credentials"
    (fun _ => hfail) to_telegram_retries 0
  exact ⟨hfail, by rw [runWithRetries, hrun], by rw [runWithRetries, hrun]⟩

theorem missing_credentials_fail_fast_witness :
    pyTruthyStr (none : Option String) = false ∧
    to_telegram none (some "777") (.error "Timed out") =
      .error "Missing Telegram Credentials" ∧
    (runWithRetries to_telegram_retries to_telegram_retry_delay_seconds
      (fun _ => to_telegram none (some "777") (.error "Timed out"))).2 =
      List.replicate to_telegram_retries to_telegram_retry_delay_seconds := by
  refine ⟨rfl, ?_, ?_⟩
  · exact (missing_credentials_fail_fast none (some "777")
      (.error "Timed out") (Or.inl rfl)).1
  · exact (missing_credentials_fail_fast none (some "777")
      (.error "Timed out") (Or.inl rfl)).2.1

/-- C9: both external tasks are configured with a budget of 3 retries and a
fixed 5-second delay; under the spec's retry loop an always-failing task
body is retried exactly 3 times, each retry preceded by the same 5-second
delay (no backoff growth, no jitter), before the task gives up with a
failure; and for any task body at most 3 retries are consumed and every
recorded delay equals the configured constant. -/
theorem retry_policy_fixed_delay {α β : Type} (f : Nat → Except String α)
    (g : Nat → Except String β) (p : Nat → Except String α)
    (hf : ∀ i, exceptFails (f i) = true)
    (hg : ∀ i, exceptFails (g i) = true) :
    (runWithRetries get_all_schedules_retries
      get_all_schedules_retry_delay_seconds f).2 = [5, 5, 5] ∧
    exceptFails (runWithRetries get_all_schedules_retries
      get_all_schedules_retry_delay_seconds f).1 = true ∧
    (runWithRetries to_telegram_retries to_telegram_retry_delay_seconds g).2 =
      [5, 5, 5] ∧
    exceptFails (runWithRetries to_telegram_retries
      to_telegram_retry_delay_seconds g).1 = true ∧
    (runWithRetries get_all_schedules_retries
      get_all_schedules_retry_delay_seconds p).2.length ≤
      get_all_schedules_retries ∧
    ∀ d ∈ (runWithRetries get_all_schedules_retries
      get_all_schedules_retry_delay_seconds p).2,
      d = get_all_schedules_retry_delay_seconds := by
  have hfa := runRetriesFrom_all_fail get_all_schedules_retry_delay_seconds f hf
    get_all_schedules_retries 0
  have hga := runRetriesFrom_all_fail to_telegram_retry_delay_seconds g hg
    to_telegram_retries 0
  have hpa := runRetriesFrom_delays get_all_schedules_retry_delay_seconds p
    get_all_schedules_retries 0
  exact ⟨hfa.1, hfa.2, hga.1, hga.2, hpa.1, hpa.2⟩

theorem retry_policy_fixed_delay_witness :
    (∀ i : Nat, exceptFails ((fun _ => (.error "boom" : Except String Unit)) i) = true) ∧
    (runWithRetries get_all_schedules_retries
      get_all_schedules_retry_delay_seconds
      (fun _ => (.error "boom" : Except String Unit))).2 = [5, 5, 5] := by
  refine ⟨fun _ => rfl, ?_⟩
  exact (retry_policy_fixed_delay (fun _ => (.error "boom" : Except String Unit))
    (fun _ => (.error "boom" : Except String Unit))
    (fun _ => (.error "boom" : Except String Unit))
    (fun _ => rfl) (fun _ => rfl)).1

/-- C7: whenever the Fetcher succeeds, its summary is a non-empty (truthy)
string — the "no events" sentinel included — so the orchestrator's
truthiness gate passes: `main_flow` invokes the Notifier exactly once with
a text equal, character for character, to the Fetcher's summary, and the
run reports success when the send succeeds. -/
theorem fetch_success_notifies_once (date : String) (auth : Except String Unit)
    (query : String → Except String (List Event))
    (send : String → Except String Unit) (s : String)
    (hfetch : get_all_schedules date auth query = .ok s)
    (hsend : send s = .ok ()) :
    s ≠ "" ∧ main_flow (.ok s) send = (.ok (), [s]) := by
  have hne := get_all_schedules_ok_ne date auth query s hfetch
  refine ⟨hne, ?_⟩
  simp [main_flow, ne_empty_isEmpty_false s hne, hsend]

theorem fetch_success_notifies_once_witness :
    get_all_schedules "2025-01-01" (.ok ())
      (fun calendar_id => if calendar_id = "primary" then
        .ok [standupEvent, holidayEvent] else .ok []) =
      .ok "Schedule for 2025-01-01:\n- [2025-01-01] Standup (09:00 - 10:30)\n- [2025-01-01] Holiday (All-day)\n" ∧
    main_flow
      (.ok "Schedule for 2025-01-01:\n- [2025-01-01] Standup (09:00 - 10:30)\n- [2025-01-01] Holiday (All-day)\n")
      (fun _ => .ok ()) =
      (.ok (), ["Schedule for 2025-01-01:\n- [2025-01-01] Standup (09:00 - 10:30)\n- [2025-01-01] Holiday (All-day)\n"]) := by
  refine ⟨rfl, ?_⟩
  exact (fetch_success_notifies_once "2025-01-01" (.ok ())
    (fun calendar_id => if calendar_id = "primary" then
      .ok [standupEvent, holidayEvent] else .ok [])
    (fun _ => .ok ())
    "Schedule for 2025-01-01:\n- [2025-01-01] Standup (09:00 - 10:30)\n- [2025-01-01] Holiday (All-day)\n"
    rfl rfl).2

/-- C8: with credentials present, every send exception is classified into
exactly one of the four fixed safe messages — Network/DNS when the lowered
text contains "connection" or "dns", else Timeout when it contains
"timeout", else TLS/SSL when it contains "ssl", else Unknown — and
`to_telegram` re-raises a generic error carrying exactly that safe
message. -/
theorem send_error_classified (token chat_id : Option String) (e : String)
    (ht : pyTruthyStr token = true) (hc : pyTruthyStr chat_id = true) :
    to_telegram token chat_id (.error e) = .error (classify_send_error e) ∧
    (classify_send_error e = telegram_network_msg ∨
     classify_send_error e = telegram_timeout_msg ∨
     classify_send_error e = telegram_ssl_msg ∨
     classify_send_error e = telegram_unknown_msg) ∧
    ((strContains (strLower e) "connection" || strContains (strLower e) "dns") = true →
      classify_send_error e = telegram_network_msg) ∧
    ((strContains (strLower e) "connection" || strContains (strLower e) "dns") = false →
      strContains (strLower e) "timeout" = true →
      classify_send_error e = telegram_timeout_msg) ∧
    ((strContains (strLower e) "connection" || strContains (strLower e) "dns") = false →
      strContains (strLower e) "timeout" = false →
      strContains (strLower e) "ssl" = true →
      classify_send_error e = telegram_ssl_msg) ∧
    ((strContains (strLower e) "connection" || strContains (strLower e) "dns") = false →
      strContains (strLower e) "timeout" = false →
      strContains (strLower e) "ssl" = false →
      classify_send_error e = telegram_unknown_msg) := by
  refine ⟨by simp [to_telegram, ht, hc], ?_, ?_, ?_, ?_, ?_⟩
  · unfold classify_send_error
    split_ifs <;> simp
  · intro h1
    simp [classify_send_error, h1]
  · intro h1 h2
    simp [classify_send_error, h1, h2]
  · intro h1 h2 h3
    simp [classify_send_error, h1, h2, h3]
  · intro h1 h2 h3
    simp [classify_send_error, h1, h2, h3]

theorem send_error_classified_witness :
    pyTruthyStr (some "123:abc") = true ∧
    classify_send_error "Connection refused" = telegram_network_msg ∧
    to_telegram (some "123:abc") (some "99") (.error "Connection refused") =
      .error (classify_send_error "Connection refused") := by
  refine ⟨rfl, by decide, ?_⟩
  exact (send_error_classified (some "123:abc") (some "99") "Connection refused"
    rfl rfl).1

/-- C10: an aggregated event whose `start` payload has neither `dateTime`
nor `date` is not skipped: its formatting raises (the `None` slice), the
error escapes the per-source swallowing (which covers only the events
query), and the whole fetch fails with the classified Unknown message. -/
theorem startless_event_fails_fetch (date : String)
    (query : String → Except String (List Event)) (bad : Event)
    (hmem : bad ∈ aggregate_events query) (hstart : startRaw bad = none) :
    get_all_schedules date (.ok ()) query = .error unknown_error_msg := by
  have hne : (aggregate_events query).isEmpty = false := by
    cases hq : aggregate_events query with
    | nil => rw [hq] at hmem; exact absurd hmem (List.not_mem_nil bad)
    | cons a l => rfl
  have hf : format_events date (aggregate_events query) =
      .error noneTypeErrorText := by
    unfold format_events
    exact format_fold_error_of_startless _ _ bad hmem hstart
  have hclass : classify_fetch_error noneTypeErrorText = unknown_error_msg := by
    decide
  simp [get_all_schedules, hne, hf, hclass]

theorem startless_event_fails_fetch_witness :
    startRaw startlessEvent = none ∧
    startlessEvent ∈ aggregate_events (fun calendar_id =>
      if calendar_id = "primary" then .ok [startlessEvent] else .ok []) ∧
    get_all_schedules "2025-01-01" (.ok ()) (fun calendar_id =>
      if calendar_id = "primary" then .ok [startlessEvent] else .ok []) =
      .error unknown_error_msg := by
  refine ⟨rfl, by decide, ?_⟩
  exact startless_event_fails_fetch "2025-01-01"
    (fun calendar_id => if calendar_id = "primary" then .ok [startlessEvent] else .ok [])
    startlessEvent (by decide) rfl

end DailySchedule
